import Mathlib

/-!
Verification of the WTF stack-trace capture-and-symbolication engine
(`StackTrace.cpp`): one-shot stack capture with frame skipping, a
fixed-capacity trace representation, platform symbol-resolution
strategies, best-effort demangling, and line formatting.

The C++ translation unit is shallowly embedded below.  Platform
primitives (`backtrace`, `RtlCaptureStackBackTrace`, `backtrace_pcinfo`,
`backtrace_syminfo`, `abi::__cxa_demangle`, `backtrace_symbols`,
`SymFromAddress`, `dladdr`) are modelled as oracle fields of a
configuration record, and the preprocessor flags (`USE(LIBBACKTRACE)`,
`HAVE(BACKTRACE_SYMBOLS)`, `OS(WINDOWS)`, `HAVE(DLADDR)`,
`HAVE(BACKTRACE)`) as booleans of the same record, so that every build
configuration of the file is covered by one Lean definition.
Machine `int` values are modelled as `Int`; addresses as `Nat`.
-/

namespace WTF

/-- An address in the captured stack. -/
abbrev Addr := Nat

/-- The `StackTrace` object.  The class declaration lives in the header
`wtf/StackTrace.h`; the fields below are the ones this translation unit
reads and writes (`m_size`, `m_capacity`, the display-prefix member
`m_prefix` — named `m_pfx` here — and the trailing address storage
reached through `stack()`).  The trailing fixed-capacity buffer is
modelled as the list of post-skip addresses the capture copied in. -/
structure StackTrace where
  m_size : Int := 0
  m_capacity : Int := 0
  m_pfx : Option String := none
  m_stack : List Addr := []
deriving DecidableEq

/-- The `DemangleEntry` returned by `StackTrace::demangle`: the raw
mangled name and the `__cxa_demangle` result, both possibly null
(`const char*`).  Per the spec's data model it is the ephemeral pair of
(raw name, optional demangled name). -/
structure DemangleEntry where
  mangledName : Option String
  demangledName : Option String
deriving DecidableEq

/-- Build flags and platform oracles for one build configuration.
`pcinfo pc` is the function name `backtrace_pcinfo` reports through
`backtraceFullCallback` (null and not-found collapse to `none`);
`syminfo pc` likewise for `backtrace_syminfo`; `cxaDemangle` is
`abi::__cxa_demangle` (`none` = demangling failed); `backtraceSymbols`
is `backtrace_symbols` (`none` = it returned null); `symFromAddress` is
`DbgHelper::SymFromAddress` (`none` = failure); `dladdr pc` is the
`dli_sname` field when `dladdr` succeeds, `none` when `dladdr` fails or
`dli_sname` is null; `backtraceStateOk` is whether
`backtrace_create_state` returned a non-null `backtrace_state*`. -/
structure Config where
  useLibbacktrace : Bool := false
  haveBacktraceSymbols : Bool := false
  isWindows : Bool := false
  haveDladdr : Bool := false
  haveBacktrace : Bool := false
  backtraceStateOk : Bool := true
  pcinfo : Addr → Option String := fun _ => none
  syminfo : Addr → Option String := fun _ => none
  cxaDemangle : String → Option String := fun _ => none
  backtraceSymbols : List Addr → Option (List String) := fun _ => none
  symFromAddress : Addr → Option String := fun _ => none
  dladdr : Addr → Option String := fun _ => none

/-- `WTFGetBacktrace(void** stack, int* size)`: with a backtrace
capability (`HAVE(BACKTRACE)` or `OS(WINDOWS)`) the platform writes at
most `*size` frames of the current stack (`platformFrames`, innermost
first) into the buffer and reports how many it wrote; otherwise it
reports `*size = 0`.  Returns (buffer contents, reported count). -/
def WTFGetBacktrace (hasCapability : Bool) (platformFrames : List Addr)
    (size : Int) : List Addr × Int :=
  if hasCapability then
    let frames := platformFrames.take (Int.toNat size)
    (frames, (frames.length : Int))
  else
    ([], 0)

/-- `StackTrace::captureStackTrace(int maxFrames, int framesToSkip)`:
coerces `maxFrames` to at least 1, adds 2 to `framesToSkip` (to hide
`captureStackTrace` and `WTFGetBacktrace` themselves), requests
`maxFrames + framesToSkip` frames, then sets `m_size` and `m_capacity`.
`RELEASE_ASSERT(numberOfFrames >= framesToSkip)` is modelled from the
spec (`wtf/Assertions.h` is not part of the sources here): the spec
calls the halting condition "a programmer-error assertion: fatal only
in validated/debug builds, silently clamped to a safe value in
production builds", so the assertion halts (`none`) when
`validatedBuild` is true and otherwise falls through to the assignment
`m_size = numberOfFrames - framesToSkip` that the source performs. -/
def StackTrace.captureStackTrace (validatedBuild hasCapability : Bool)
    (platformFrames : List Addr) (maxFrames framesToSkip : Int) :
    Option StackTrace :=
  let maxFrames2 := max 1 maxFrames
  let framesToSkip2 := framesToSkip + 2
  let numberOfFrames := maxFrames2 + framesToSkip2
  let result := WTFGetBacktrace hasCapability platformFrames numberOfFrames
  if result.2 ≠ 0 then
    if result.2 < framesToSkip2 ∧ validatedBuild then
      none
    else
      some { m_size := result.2 - framesToSkip2, m_capacity := maxFrames2,
             m_pfx := none,
             m_stack := result.1.drop (Int.toNat framesToSkip2) }
  else
    some { m_size := 0, m_capacity := maxFrames2, m_pfx := none,
           m_stack := result.1.drop (Int.toNat framesToSkip2) }

/-- `symbolize(void* const* addresses, int size)` (the `USE(LIBBACKTRACE)`
strategy): returns null (`none`) when `backtraceState()` is null;
otherwise, per address, tries `backtrace_pcinfo` first, calls
`backtrace_syminfo` only when that produced no symbol, then demangles
the symbol (keeping the raw text when demangling fails) and substitutes
the placeholder string when there is no symbol at all. -/
def symbolize (c : Config) (addresses : List Addr) : Option (List String) :=
  if c.backtraceStateOk then
    some (addresses.map (fun pc =>
      let symbol : Option String :=
        match c.pcinfo pc with
        | some s => some s
        | none => c.syminfo pc
      match symbol with
      | some s =>
        match c.cxaDemangle s with
        | some demangled => demangled
        | none => s
      | none => "???"))
  else
    none

/-- `StackTrace::demangle(void* pc)`: with `HAVE(DLADDR)`, queries
`dladdr` for the nearest preceding symbol; when it yields a name, runs
`__cxa_demangle` on it; returns a `DemangleEntry` when either name is
available, `std::nullopt` otherwise (and always `std::nullopt` without
`HAVE(DLADDR)`). -/
def StackTrace.demangle (c : Config) (pc : Addr) : Option DemangleEntry :=
  if c.haveDladdr then
    let mangledName := c.dladdr pc
    let cxaDemangled :=
      match mangledName with
      | some m => c.cxaDemangle m
      | none => none
    if mangledName.isSome ∨ cxaDemangled.isSome then
      some { mangledName := mangledName, demangledName := cxaDemangled }
    else
      none
  else
    none

/-- One output line of `StackTrace::dump`: the prefix text
(`m_prefix ? m_prefix : ""`), the indent text, the 1-based frame
number, the raw address, and the name argument of the printf — `none`
models the second printf form that prints no name at all. -/
structure Line where
  pfx : String
  indent : String
  frameNumber : Int
  address : Addr
  name : Option String
deriving DecidableEq

/-- Result of a `dump` call: the emitted lines and the trace object as
it stands after the call (the method is `const`; mirroring the object
in the result lets non-mutation be stated). -/
structure DumpResult where
  lines : List Line
  trace : StackTrace
deriving DecidableEq

/-- The bulk symbolization step at the top of `StackTrace::dump`:
`some r` when a `char** symbols` array is produced (`r = none` meaning
it was null, which makes `dump` return early), `none` when the build
has no bulk step (`#if` chain: `USE(LIBBACKTRACE)` uses `symbolize`,
else `HAVE(BACKTRACE_SYMBOLS)` uses `backtrace_symbols`, else no
array). -/
def bulkSymbols (c : Config) (stack : List Addr) :
    Option (Option (List String)) :=
  if c.useLibbacktrace then
    some (symbolize c stack)
  else if c.haveBacktraceSymbols then
    some (c.backtraceSymbols stack)
  else
    none

/-- The body of the per-frame loop of `StackTrace::dump` for index `i`
and address `addr`: `mangledName` comes from `symbols[i]` under
`HAVE(BACKTRACE_SYMBOLS)`, else from `SymFromAddress` on Windows; a
successful `demangle` overrides both names; the printf emits the name
`cxaDemangled ? cxaDemangled : mangledName` when either is non-null and
no name otherwise. -/
def frameLine (c : Config) (symbols : List String) (pfxStr indentStr : String)
    (i : Nat) (addr : Addr) : Line :=
  let mangledName : Option String :=
    if c.haveBacktraceSymbols then
      some (symbols.getD i "")
    else if c.isWindows then
      c.symFromAddress addr
    else
      none
  let names : Option String × Option String :=
    match StackTrace.demangle c addr with
    | some d => (d.mangledName, d.demangledName)
    | none => (mangledName, none)
  { pfx := pfxStr, indent := indentStr, frameNumber := (i : Int) + 1,
    address := addr,
    name :=
      match names.2 with
      | some demangled => some demangled
      | none => names.1 }

/-- `StackTrace::dump(PrintStream& out, const char* indentString) const`:
runs the bulk symbolization step (returning early, with no output, when
it produced a null array), substitutes `""` for a null `indentString`,
then emits one line per frame index `0 ≤ i < m_size`. -/
def StackTrace.dump (c : Config) (t : StackTrace)
    (indentString : Option String) : DumpResult :=
  let stack := t.m_stack.take (Int.toNat t.m_size)
  let bulk := bulkSymbols c stack
  if bulk = some none then
    { lines := [], trace := t }
  else
    let symbols : List String := (bulk.getD (some [])).getD []
    let indentStr := indentString.getD ""
    let pfxStr := Option.getD t.m_pfx ""
    { lines := stack.enum.map (fun p =>
        frameLine c symbols pfxStr indentStr p.1 p.2),
      trace := t }

/-- Modelled from the spec: the trace's settable display prefix lives in
the header (`wtf/StackTrace.h`, not among the sources here); the spec
says the trace "carries an optional textual prefix used only for
rendering" that is "settable … with no effect on capture or
resolution". -/
def StackTrace.setPfx (t : StackTrace) (p : Option String) : StackTrace :=
  { t with m_pfx := p }

end WTF

namespace WTF

/-- The platform primitive reports a nonnegative count, at most
`max size 0` (it never writes more frames than requested). -/
theorem WTFGetBacktrace_reported_le (hasCapability : Bool)
    (platformFrames : List Addr) (size : Int) :
    0 ≤ (WTFGetBacktrace hasCapability platformFrames size).2 ∧
      (WTFGetBacktrace hasCapability platformFrames size).2 ≤ max size 0 := by
  unfold WTFGetBacktrace
  split
  · refine ⟨Int.ofNat_nonneg _, ?_⟩
    have h := List.length_take_le (Int.toNat size) platformFrames
    have h2 : ((platformFrames.take (Int.toNat size)).length : Int)
        ≤ ((Int.toNat size : Nat) : Int) := Int.ofNat_le.mpr h
    have h3 : ((Int.toNat size : Nat) : Int) = max size 0 := Int.toNat_eq_max size
    simp only []
    omega
  · simp [le_max_iff]

/-- Claim C1 (amended): when the platform primitive reports a nonzero
frame count smaller than the total skip count (`framesToSkip + 2`), the
release-assertion condition fails: capture halts in validated builds,
and in production builds (assertion modelled from the spec as non-fatal
there) the returned trace's size is the negative difference
`reported - (framesToSkip + 2)` — it is not clamped to 0. -/
theorem c1_skip_exceeds_reported (platformFrames : List Addr)
    (maxFrames framesToSkip : Int)
    (hne : (WTFGetBacktrace true platformFrames
        (max 1 maxFrames + (framesToSkip + 2))).2 ≠ 0)
    (hlt : (WTFGetBacktrace true platformFrames
        (max 1 maxFrames + (framesToSkip + 2))).2 < framesToSkip + 2) :
    StackTrace.captureStackTrace true true platformFrames maxFrames
        framesToSkip = none ∧
    Option.map StackTrace.m_size (StackTrace.captureStackTrace false true
        platformFrames maxFrames framesToSkip)
      = some ((WTFGetBacktrace true platformFrames
          (max 1 maxFrames + (framesToSkip + 2))).2 - (framesToSkip + 2)) ∧
    (WTFGetBacktrace true platformFrames
        (max 1 maxFrames + (framesToSkip + 2))).2 - (framesToSkip + 2) < 0 := by
  refine ⟨?_, ?_, by omega⟩
  · simp [StackTrace.captureStackTrace, hne, hlt]
  · simp [StackTrace.captureStackTrace, hne, hlt]

/-- Claim C1 (counterexample to the claim as stated): a production-build
capture (`validatedBuild = false`) with `maxFrames = 1`,
`framesToSkip = 0` on a platform stack of depth 1 reports 1 frame,
which is nonzero and smaller than the total skip count 2; the resulting
trace has `m_size = -1`, not the claimed clamped value 0 — the size is
negative. -/
theorem c1_counterexample :
    Option.map StackTrace.m_size
        (StackTrace.captureStackTrace false true [7] 1 0) = some (-1) ∧
    StackTrace.captureStackTrace true true [7] 1 0 = none := by decide

theorem c1_skip_exceeds_reported_witness :
    StackTrace.captureStackTrace true true [7] 1 0 = none ∧
    Option.map StackTrace.m_size
        (StackTrace.captureStackTrace false true [7] 1 0)
      = some ((WTFGetBacktrace true [7] (max 1 1 + ((0:Int) + 2))).2
          - ((0:Int) + 2)) :=
  ⟨(c1_skip_exceeds_reported [7] 1 0 (by decide) (by decide)).1,
   (c1_skip_exceeds_reported [7] 1 0 (by decide) (by decide)).2.1⟩

/-- Claim C2: for `maxFrames ≥ 1` and `framesToSkip ≥ 0`, whatever
frame count the platform primitive reports (it never exceeds the
requested count), any trace capture returns has `m_size ≤ maxFrames`. -/
theorem c2_capture_size_le_maxFrames (validatedBuild hasCapability : Bool)
    (platformFrames : List Addr) (maxFrames framesToSkip : Int)
    (h1 : 1 ≤ maxFrames) (h2 : 0 ≤ framesToSkip) (t : StackTrace)
    (h : StackTrace.captureStackTrace validatedBuild hasCapability
        platformFrames maxFrames framesToSkip = some t) :
    t.m_size ≤ maxFrames := by
  have hb := WTFGetBacktrace_reported_le hasCapability platformFrames
    (max 1 maxFrames + (framesToSkip + 2))
  have hmax : max 1 maxFrames = maxFrames := max_eq_right h1
  rw [hmax] at hb
  have hmax2 : max (maxFrames + (framesToSkip + 2)) 0
      = maxFrames + (framesToSkip + 2) := max_eq_left (by omega)
  rw [hmax2] at hb
  simp only [StackTrace.captureStackTrace, hmax] at h
  split at h
  · split at h
    · exact absurd h (by simp)
    · cases h
      simp only []
      omega
  · cases h
    simp only []
    omega

/-- A concrete trace used to instantiate capture theorems: the result of
`captureStackTrace` on a stack of depth 5 with `maxFrames = 2` and
`framesToSkip = 1`. -/
def traceW : StackTrace :=
  { m_size := 2, m_capacity := 2, m_pfx := none, m_stack := [4, 5] }

theorem c2_capture_size_le_maxFrames_witness :
    (1:Int) ≤ 2 ∧ (0:Int) ≤ 1 ∧ StackTrace.m_size traceW ≤ 2 :=
  ⟨by decide, by decide,
   c2_capture_size_le_maxFrames true true [1, 2, 3, 4, 5] 2 1 (by decide)
     (by decide) traceW (by decide)⟩

/-- Claim C3: when the platform primitive reports zero frames (in
particular on a platform with no backtrace capability), capture returns
a trace (it does not halt) whose size is 0, for every `maxFrames`,
`framesToSkip` and build kind. -/
theorem c3_no_capability_empty_trace (validatedBuild hasCapability : Bool)
    (platformFrames : List Addr) (maxFrames framesToSkip : Int)
    (h : (WTFGetBacktrace hasCapability platformFrames
        (max 1 maxFrames + (framesToSkip + 2))).2 = 0) :
    Option.map StackTrace.m_size (StackTrace.captureStackTrace validatedBuild
        hasCapability platformFrames maxFrames framesToSkip) = some 0 := by
  simp [StackTrace.captureStackTrace, h]

theorem c3_no_capability_empty_trace_witness :
    Option.map StackTrace.m_size
        (StackTrace.captureStackTrace true false [1, 2, 3] 5 0) = some 0 :=
  c3_no_capability_empty_trace true false [1, 2, 3] 5 0 (by decide)

end WTF

namespace WTF

/-- The build configuration with every platform capability absent (the
final `#else` of each preprocessor chain). -/
def cfgBare : Config := {}

/-- A `USE(LIBBACKTRACE)` build in which `backtrace_create_state`
returned null, so `symbolize` returns a null array. -/
def cfgLibFail : Config := { useLibbacktrace := true, backtraceStateOk := false }

/-- A trace holding a single captured address. -/
def trace1 : StackTrace :=
  { m_size := 1, m_capacity := 1, m_pfx := none, m_stack := [42] }

/-- A trace with `m_size = 0`. -/
def trace0 : StackTrace := {}

/-- Claim C5: `dump` is `const` on the trace — the trace object after a
`dump` call is the one passed in, field for field — and a second `dump`
of the same trace, under the same configuration (same loaded-module,
resolution and demangling oracles), yields exactly the lines of the
first. -/
theorem c5_dump_idempotent_no_mutation (c : Config) (t : StackTrace)
    (indentString : Option String) :
    (StackTrace.dump c t indentString).trace = t ∧
    (StackTrace.dump c ((StackTrace.dump c t indentString).trace)
        indentString).lines = (StackTrace.dump c t indentString).lines := by
  have htrace : (StackTrace.dump c t indentString).trace = t := by
    simp only [StackTrace.dump]
    split <;> rfl
  exact ⟨htrace, by rw [htrace]⟩

/-- Claim C8: on a trace with `m_size = 0` the per-frame loop runs zero
times, so `dump` emits no line, whichever strategy the configuration
enables; it returns normally. -/
theorem c8_dump_empty_trace (c : Config) (t : StackTrace)
    (indentString : Option String) (h : t.m_size = 0) :
    (StackTrace.dump c t indentString).lines = [] := by
  simp only [StackTrace.dump, h]
  split <;> simp

theorem c8_dump_empty_trace_witness :
    StackTrace.m_size trace0 = 0 ∧
    (StackTrace.dump cfgLibFail trace0 none).lines = [] :=
  ⟨rfl, c8_dump_empty_trace cfgLibFail trace0 none rfl⟩

/-- Claim C10: a null `indentString` is replaced by the empty string,
and a null `m_prefix` prints as the empty string, so `dump` emits the
same lines for a null indent as for an empty one, and the same lines
for an unset prefix as for an empty one. -/
theorem c10_null_indent_null_pfx (c : Config) (t : StackTrace)
    (indentString : Option String) :
    (StackTrace.dump c t none).lines = (StackTrace.dump c t (some "")).lines ∧
    (StackTrace.dump c { t with m_pfx := none } indentString).lines
      = (StackTrace.dump c { t with m_pfx := some "" } indentString).lines := by
  constructor
  · simp only [StackTrace.dump]
    split <;> simp
  · simp only [StackTrace.dump]
    split <;> simp

end WTF

namespace WTF

/-- Mapping `Line.address` over the emitted frame lines recovers the
addresses, in order. -/
theorem map_frameLine_address (c : Config) (syms : List String)
    (pf ind : String) (l : List Addr) :
    (l.enum.map (fun p => frameLine c syms pf ind p.1 p.2)).map Line.address
      = l := by
  rw [List.map_map]
  have hfun : (Line.address ∘ fun p : Nat × Addr =>
      frameLine c syms pf ind p.1 p.2) = Prod.snd := by
    funext p
    rfl
  rw [hfun, List.enum_map_snd]

/-- Mapping `Line.frameNumber` over the emitted frame lines yields the
1-based numbers `1, 2, …`. -/
theorem map_frameLine_number (c : Config) (syms : List String)
    (pf ind : String) (l : List Addr) :
    (l.enum.map (fun p => frameLine c syms pf ind p.1 p.2)).map Line.frameNumber
      = (List.range l.length).map (fun i : Nat => (i : Int) + 1) := by
  rw [List.map_map]
  have hfun : (Line.frameNumber ∘ fun p : Nat × Addr =>
      frameLine c syms pf ind p.1 p.2)
      = (fun i : Nat => (i : Int) + 1) ∘ Prod.fst := by
    funext p
    rfl
  rw [hfun, ← List.enum_map_fst l, List.map_map]

/-- Claim C4 (amended): whenever the bulk symbolization step does not
produce a null array, `dump` emits exactly one line per captured
address, in capture order, each carrying the 1-based frame number and
the raw address; a frame whose address resolves to no symbol still
produces its line, but that line simply omits the name text (the
placeholder string originates inside `symbolize`, not in `dump`'s own
formatting), and when the bulk symbolization step returns a null array
`dump` emits zero lines. -/
theorem c4_one_line_per_address (c : Config) (t : StackTrace)
    (indentString : Option String)
    (h : bulkSymbols c (t.m_stack.take (Int.toNat t.m_size)) ≠ some none) :
    ((StackTrace.dump c t indentString).lines.map Line.address)
      = t.m_stack.take (Int.toNat t.m_size) ∧
    ((StackTrace.dump c t indentString).lines.map Line.frameNumber)
      = (List.range (t.m_stack.take (Int.toNat t.m_size)).length).map
          (fun i : Nat => (i : Int) + 1) := by
  simp only [StackTrace.dump, if_neg h]
  exact ⟨map_frameLine_address _ _ _ _ _, map_frameLine_number _ _ _ _ _⟩

/-- Claim C4 (counterexample to the claim as stated): in the bare build
(no symbol source at all) the line for an unresolvable address carries
no name text whatsoever — there is no placeholder in it — and in a
`USE(LIBBACKTRACE)` build whose backend state failed to initialize,
`dump` emits zero lines for a one-frame trace instead of one line per
address. -/
theorem c4_counterexample :
    ((StackTrace.dump cfgBare trace1 none).lines.map Line.name) = [none] ∧
    (StackTrace.dump cfgLibFail trace1 none).lines = [] := by decide

theorem c4_one_line_per_address_witness :
    ((StackTrace.dump cfgBare trace1 none).lines.map Line.address) = [42] :=
  ((c4_one_line_per_address cfgBare trace1 none (by decide)).1).trans (by decide)

/-- A `USE(LIBBACKTRACE)` build with a working backend in which
`backtrace_pcinfo` never finds anything and `backtrace_syminfo` knows
address 5. -/
def cfgA2 : Config :=
  { useLibbacktrace := true
    backtraceStateOk := true
    syminfo := fun a => if a = 5 then some "_Z3foov" else none }

/-- Claim C6: under the `USE(LIBBACKTRACE)` strategy, (1) when the
process-wide `backtrace_state` failed to initialize, `symbolize`
returns nothing for every address list; (2) when the precise
`backtrace_pcinfo` lookup yields a name for every address, the result
is independent of the coarse `backtrace_syminfo` oracle — it is never
consulted; (3) when the precise lookup yields no name for an address,
the coarse lookup's answer (demangled when possible, the placeholder
when absent) is what `symbolize` reports for it. -/
theorem c6_strategyA_lookup_order (c : Config) (addresses : List Addr)
    (f g : Addr → Option String) (pc : Addr) :
    (c.backtraceStateOk = false → symbolize c addresses = none) ∧
    ((∀ a ∈ addresses, (c.pcinfo a).isSome) →
      symbolize { c with syminfo := f } addresses
        = symbolize { c with syminfo := g } addresses) ∧
    (c.backtraceStateOk = true → c.pcinfo pc = none →
      symbolize c [pc] = some [match c.syminfo pc with
        | some s =>
          match c.cxaDemangle s with
          | some demangled => demangled
          | none => s
        | none => "???"]) := by
  refine ⟨?_, ?_, ?_⟩
  · intro h
    simp [symbolize, h]
  · intro hall
    simp only [symbolize]
    split
    · refine congrArg some (List.map_congr_left ?_)
      intro a ha
      obtain ⟨s, hs⟩ := Option.isSome_iff_exists.mp (hall a ha)
      simp [hs]
    · rfl
  · intro h1 h2
    simp [symbolize, h1, h2]

theorem c6_strategyA_lookup_order_witness :
    symbolize cfgLibFail [5] = none ∧
    symbolize cfgA2 [5] = some ["_Z3foov"] :=
  ⟨(c6_strategyA_lookup_order cfgLibFail [5] (fun _ => none) (fun _ => none)
      5).1 rfl,
   ((c6_strategyA_lookup_order cfgA2 [5] (fun _ => none) (fun _ => none)
      5).2.2 rfl rfl).trans (by decide)⟩

end WTF

namespace WTF

/-- A trace holding the single address `pc`. -/
def mkTrace1 (pc : Addr) : StackTrace :=
  { m_size := 1, m_capacity := 1, m_pfx := none, m_stack := [pc] }

/-- A `HAVE(DLADDR)` build in which `dladdr` knows address 5 under the
mangled name `_Z3foov` and the demangler turns that into `foo()`. -/
def cfgB : Config :=
  { haveDladdr := true
    dladdr := fun a => if a = 5 then some "_Z3foov" else none
    cxaDemangle := fun s => if s = "_Z3foov" then some "foo()" else none }

/-- Claim C7: under the dynamic-loader strategy (`HAVE(DLADDR)`, no
bulk symbol source, not Windows), when `dladdr` yields no symbol name
for an address, `demangle` returns nothing and the dumped line for that
address carries no name; when it yields a raw name, the dumped line
shows the demangled form when `__cxa_demangle` produced one and the raw
name unchanged otherwise. -/
theorem c7_strategyB_demangle (c : Config) (pc : Addr)
    (hA : c.useLibbacktrace = false) (hB : c.haveBacktraceSymbols = false)
    (hW : c.isWindows = false) (hD : c.haveDladdr = true) :
    (c.dladdr pc = none → StackTrace.demangle c pc = none ∧
      ((StackTrace.dump c (mkTrace1 pc) none).lines.map Line.name) = [none]) ∧
    (∀ raw, c.dladdr pc = some raw →
      ((StackTrace.dump c (mkTrace1 pc) none).lines.map Line.name)
        = [some (match c.cxaDemangle raw with
            | some demangled => demangled
            | none => raw)]) := by
  have hstack : (mkTrace1 pc).m_stack.take (Int.toNat (mkTrace1 pc).m_size)
      = [pc] := rfl
  have hbulk : bulkSymbols c [pc] = none := by
    simp [bulkSymbols, hA, hB]
  constructor
  · intro h
    have hdem : StackTrace.demangle c pc = none := by
      simp [StackTrace.demangle, hD, h]
    refine ⟨hdem, ?_⟩
    simp only [StackTrace.dump, hstack, hbulk]
    simp [frameLine, hB, hW, hdem]
  · intro raw h
    have hdem : StackTrace.demangle c pc
        = some { mangledName := some raw,
                 demangledName := c.cxaDemangle raw } := by
      simp [StackTrace.demangle, hD, h]
    simp only [StackTrace.dump, hstack, hbulk]
    cases hc : c.cxaDemangle raw <;>
      simp [frameLine, hB, hW, hdem, hc]

theorem c7_strategyB_demangle_witness :
    ((StackTrace.dump cfgB (mkTrace1 5) none).lines.map Line.name)
      = [some "foo()"] :=
  (((c7_strategyB_demangle cfgB 5 rfl rfl rfl rfl).2) "_Z3foov"
    (by decide)).trans (by decide)

/-- Claim C9: any trace capture returns has `m_capacity` equal to the
coerced `maxFrames` (hence at least 1) and `m_size ≤ m_capacity`;
capture is the only writer of those fields — `dump` hands the trace
back untouched and setting the display prefix changes neither size,
capacity nor the stored addresses. -/
theorem c9_trace_invariants (validatedBuild hasCapability : Bool)
    (platformFrames : List Addr) (maxFrames framesToSkip : Int)
    (t : StackTrace)
    (h : StackTrace.captureStackTrace validatedBuild hasCapability
        platformFrames maxFrames framesToSkip = some t) :
    t.m_capacity = max 1 maxFrames ∧ 1 ≤ t.m_capacity ∧
    t.m_size ≤ t.m_capacity ∧
    (∀ c indentString, (StackTrace.dump c t indentString).trace = t) ∧
    (∀ p, (StackTrace.setPfx t p).m_size = t.m_size ∧
      (StackTrace.setPfx t p).m_capacity = t.m_capacity ∧
      (StackTrace.setPfx t p).m_stack = t.m_stack) := by
  have hdump : ∀ c indentString,
      (StackTrace.dump c t indentString).trace = t := by
    intro c indentString
    simp only [StackTrace.dump]
    split <;> rfl
  have hpfx : ∀ p, (StackTrace.setPfx t p).m_size = t.m_size ∧
      (StackTrace.setPfx t p).m_capacity = t.m_capacity ∧
      (StackTrace.setPfx t p).m_stack = t.m_stack := by
    intro p
    simp [StackTrace.setPfx]
  have hb := WTFGetBacktrace_reported_le hasCapability platformFrames
    (max 1 maxFrames + (framesToSkip + 2))
  have hm1 : (1:Int) ≤ max 1 maxFrames := le_max_left 1 maxFrames
  simp only [StackTrace.captureStackTrace] at h
  rcases le_or_lt (max 1 maxFrames + (framesToSkip + 2)) 0 with hr | hr
  · rw [max_eq_right hr] at hb
    split at h
    · next hne =>
      exact absurd (le_antisymm hb.2 hb.1) hne
    · cases h
      exact ⟨rfl, hm1, by simp, hdump, hpfx⟩
  · rw [max_eq_left (le_of_lt hr)] at hb
    split at h
    · split at h
      · exact absurd h (by simp)
      · cases h
        refine ⟨rfl, hm1, ?_, hdump, hpfx⟩
        simp only []
        omega
    · cases h
      exact ⟨rfl, hm1, by simp, hdump, hpfx⟩

theorem c9_trace_invariants_witness :
    StackTrace.m_capacity traceW = max 1 2 ∧
    1 ≤ StackTrace.m_capacity traceW ∧
    StackTrace.m_size traceW ≤ StackTrace.m_capacity traceW :=
  ⟨(c9_trace_invariants true true [1, 2, 3, 4, 5] 2 1 traceW (by decide)).1,
   (c9_trace_invariants true true [1, 2, 3, 4, 5] 2 1 traceW (by decide)).2.1,
   (c9_trace_invariants true true [1, 2, 3, 4, 5] 2 1 traceW
     (by decide)).2.2.1⟩

end WTF
